import Mathlib

/-
Verification of the bookscrape repository's entity-resolution,
rating-distribution and renown-classification core against its
natural-language specification.

Python strings are modelled as `List Char`; Python `str.isdigit` is
modelled as ASCII digits (`Char.isDigit`) and `str.isalnum() and
str.isascii()` as `Char.isAlphanum`, which agree on all ASCII input.
Python exceptions are modelled by the `PyErr` type and fallible code
returns `Except PyErr _`.  Python `float` arithmetic is modelled as exact
rational arithmetic (`ℚ`).
-/

/-- Error classes raised by the modelled Python code. -/
inductive PyErr where
  | valueError
  | keyError
  | zeroDivisionError
  | parsingError
  | timeout
  | httpError
  deriving DecidableEq, Repr

/-- Model of Python's `text.split(sep)` for a single-character separator
(`bookscrape.scrape.provider.goodreads.utils.is_goodreads_id` uses it via
`text.split(sep)`): splits at every occurrence of `sep`, keeping empty
pieces, and always returns at least one piece. -/
def pySplit (sep : Char) : List Char → List (List Char)
  | [] => [[]]
  | c :: cs =>
    let rest := pySplit sep cs
    if c == sep then [] :: rest
    else (c :: rest.headD []) :: rest.tail

/-- Characters admitted in the slug part by `is_goodreads_id`:
`(char.isalnum() and char.isascii()) or char in "_-"`. -/
def slugChar (c : Char) : Bool := c.isAlphanum || c == '_' || c == '-'

/-- Separator-branch body of `is_goodreads_id`
(src/bookscrape/scrape/provider/goodreads/utils.py lines 50-62):
`left, *right = text.split(sep); right = "".join(right)` followed by the
all-digits check on `left` and the slug-character check on `right`. -/
def goodreadsIdParts (sep : Char) (text : List Char) : Bool :=
  let parts := pySplit sep text
  let left := parts.headD []
  let right := parts.tail.flatten
  left.all Char.isDigit && right.all slugChar

/-- Model of `is_goodreads_id`
(src/bookscrape/scrape/provider/goodreads/utils.py lines 29-62). -/
def is_goodreads_id (text : List Char) : Bool :=
  if text.all Char.isDigit then true
  else if text.length ≤ 2 then false
  else if text.contains '.' && text.contains '-' then false
  else if text.contains '.' then goodreadsIdParts '.' text
  else if text.contains '-' then goodreadsIdParts '-' text
  else false

/-- Model of Python's `str.strip()` (Unicode whitespace stripped from both
ends), used by `sanitize_input` / `sanitize_output`. -/
def pyStrip (text : List Char) : List Char :=
  ((text.dropWhile Char.isWhitespace).reverse.dropWhile Char.isWhitespace).reverse

/-- Model of `re.sub(r"\s\x7b2,\x7d", " ", text)` in `sanitize_output`:
every run of two or more whitespace characters becomes a single space;
a run of exactly one whitespace character is left unchanged. -/
def collapseWhitespace : List Char → List Char
  | [] => []
  | [c] => [c]
  | c :: c' :: rest =>
    if c.isWhitespace && c'.isWhitespace then
      ' ' :: collapseWhitespace (rest.dropWhile Char.isWhitespace)
    else
      c :: collapseWhitespace (c' :: rest)
termination_by l => l.length
decreasing_by
  · simp only [List.length_cons]
    have := (List.dropWhile_sublist (l := rest) Char.isWhitespace).length_le
    omega
  · simp only [List.length_cons]
    omega

/-- Model of `sanitize_output`
(src/bookscrape/scrape/provider/goodreads/scrapers.py lines 930-936):
strip, collapse whitespace runs, replace the curly apostrophe with the
straight one. -/
def sanitize_output (text : List Char) : List Char :=
  (collapseWhitespace (pyStrip text)).map (fun c => if c == '’' then '\'' else c)

/-- Model of Python's `str.casefold` restricted to the characters occurring
in this code base (simple lowercasing). -/
def caseFold (text : List Char) : List Char := text.map Char.toLower

/-- The `PROPER_AUTHORS` fix-up table
(src/bookscrape/scrape/provider/goodreads/scrapers.py lines 912-915). -/
def PROPER_AUTHORS : List (List Char × List Char) :=
  [(("Mary Shelley").toList, ("Mary Wollstonecraft Shelley").toList),
   (("Stanislaw Lem").toList, ("Stanisław Lem").toList)]

/-- The `PROPER_TITLES` fix-up table
(src/bookscrape/scrape/provider/goodreads/scrapers.py lines 916-928). -/
def PROPER_TITLES : List (List Char × List Char) :=
  [(("Galapagos").toList, ("Galápagos").toList),
   (("How to Live Safely in a Sci-Fi Universe").toList,
    ("How to Live Safely in a Science Fictional Universe").toList),
   (("Planet of the Apes (aka Monkey Planet)").toList, ("Planet of the Apes").toList),
   (("Readme").toList, ("Reamde").toList),
   (("The Island of Doctor Moreau").toList, ("The Island of Dr. Moreau").toList),
   (("The Long Way to a Small Angry Planet").toList,
    ("The Long Way to a Small, Angry Planet").toList),
   (("The Real Story").toList, ("The Gap Into Conflict").toList),
   (("The Songs of Distant Earth").toList, ("Songs of Distant Earth").toList),
   (("The Word for World is Forest").toList, ("The Word for World Is Forest").toList),
   (("Restaurant at the End of the Universe").toList,
    ("The Restaurant at the End of the Universe").toList)]

/-- Case-folded-key lookup used in `sanitize_input`
(`\x7bk.casefold(): v for k, v in TABLE.items()\x7d` then a membership test). -/
def lookupCaseFolded (table : List (List Char × List Char)) (key : List Char) :
    Option (List Char) :=
  (table.find? (fun p => caseFold p.1 == key)).map Prod.snd

/-- Model of `sanitize_input`
(src/bookscrape/scrape/provider/goodreads/scrapers.py lines 939-949). -/
def sanitize_input (text : List Char) : List Char :=
  let t := pyStrip text
  match lookupCaseFolded PROPER_AUTHORS (caseFold t) with
  | some v => v
  | none =>
    match lookupCaseFolded PROPER_TITLES (caseFold t) with
    | some v => v
    | none => sanitize_output t

/-- Model of `is_increasing` (src/bookscrape/utils/__init__.py lines 114-117):
`False` for sequences shorter than 2, otherwise every adjacent pair must be
strictly increasing. -/
def is_increasing (seq : List ℤ) : Bool :=
  if seq.length < 2 then false
  else (seq.zip seq.tail).all (fun p => p.1 < p.2)

/-- Model of Python's `int(a * 1 / b)`: exact division truncated toward
zero (`Int.tdiv`), matching `int()` applied to the exact quotient. -/
def pyIntDiv (a b : ℤ) : ℤ := a.tdiv b

/-- The nine renown tiers (src/bookscrape/scrape/__init__.py lines 33-42). -/
inductive Renown where
  | SUPERSTAR
  | STAR
  | FAMOUS
  | POPULAR
  | WELL_KNOWN
  | KNOWN
  | SOMEWHAT_KNOWN
  | LITTLE_KNOWN
  | OBSCURE
  deriving DecidableEq, Repr

/-- The default `fractions` argument of `Renown.calculate`. -/
def DEFAULT_FRACTIONS : List ℤ := [3, 11, 29, 66, 141, 291, 591, 1191]

/-- Model of `Renown.calculate`
(src/bookscrape/scrape/__init__.py lines 44-79): validates the fractions
(exactly `len(Renown) - 1 = 8` items, strictly increasing), then walks the
tier brackets from the top down; raises `ValueError` when the count lands
in no bracket. -/
def Renown.calculate (ratings model_ratings : ℤ) (fractions : List ℤ) :
    Except PyErr Renown :=
  if fractions.length ≠ 8 then .error .valueError
  else if ¬ is_increasing fractions then .error .valueError
  else
    let f : ℕ → ℤ := fun i => pyIntDiv (model_ratings * 1) (fractions.getD i 0)
    if f 0 ≤ ratings then .ok .SUPERSTAR
    else if f 1 ≤ ratings ∧ ratings < f 0 then .ok .STAR
    else if f 2 ≤ ratings ∧ ratings < f 1 then .ok .FAMOUS
    else if f 3 ≤ ratings ∧ ratings < f 2 then .ok .POPULAR
    else if f 4 ≤ ratings ∧ ratings < f 3 then .ok .WELL_KNOWN
    else if f 5 ≤ ratings ∧ ratings < f 4 then .ok .KNOWN
    else if f 6 ≤ ratings ∧ ratings < f 5 then .ok .SOMEWHAT_KNOWN
    else if f 7 ≤ ratings ∧ ratings < f 6 then .ok .LITTLE_KNOWN
    else if 0 ≤ ratings ∧ ratings < f 7 then .ok .OBSCURE
    else .error .valueError

/-- Comparison on histogram pairs used to model Python's
`sorted(distribution.items())` (keys are unique, so comparing the first
components reproduces the lexicographic tuple order). -/
def pairLe (a b : ℚ × ℤ) : Prop := a.1 ≤ b.1

instance : DecidableRel pairLe := fun a b => inferInstanceAs (Decidable (a.1 ≤ b.1))

instance : IsTotal (ℚ × ℤ) pairLe := ⟨fun a b => le_total a.1 b.1⟩

instance : IsTrans (ℚ × ℤ) pairLe := ⟨fun _ _ _ h h' => le_trans h h'⟩

/-- Model of Python's `sorted` on histogram items (a stable sort; with
unique keys the result is the unique key-sorted rearrangement). -/
def sortPairs (l : List (ℚ × ℤ)) : List (ℚ × ℤ) := l.insertionSort pairLe

/-- Model of Python's `tuple(sorted(set(xs)))`. -/
def sortedSet (l : List ℚ) : List ℚ := l.dedup.insertionSort (· ≤ ·)

/-- State of a constructed `RatingsDistribution`
(src/bookscrape/scrape/__init__.py lines 122-208): `dist` is the
key-sorted histogram, `rank_scheme` the sorted duplicate-free target
scheme. -/
structure RatingsDistribution where
  dist : List (ℚ × ℤ)
  rank_scheme : List ℚ
  deriving DecidableEq, Repr

/-- Model of `RatingsDistribution.__init__`
(src/bookscrape/scrape/__init__.py lines 163-185).  The input
`distribution` models a Python dict's items, so its keys are unique; an
empty `rank_scheme` defaults to the distribution's keys.  Both validation
failures raise `ValueError`. -/
def RatingsDistribution.init (distribution : List (ℚ × ℤ)) (rank_scheme : List ℚ) :
    Except PyErr RatingsDistribution :=
  let scheme := if rank_scheme.isEmpty then distribution.map Prod.fst else rank_scheme
  let d : RatingsDistribution := ⟨sortPairs distribution, sortedSet scheme⟩
  if distribution.any (fun p => p.1 < 0) || distribution.length < 3 then
    .error .valueError
  else if d.rank_scheme.any (fun r => r < 0) || d.rank_scheme.length < 3 then
    .error .valueError
  else .ok d

/-- Model of the `total` property (src/bookscrape/scrape/__init__.py
lines 133-135). -/
def RatingsDistribution.total (d : RatingsDistribution) : ℤ :=
  (d.dist.map Prod.snd).sum

/-- Model of the `avg_rating` property (src/bookscrape/scrape/__init__.py
lines 137-139): `sum(rank * votes) / self.total`, which raises
`ZeroDivisionError` when `total == 0`. -/
def RatingsDistribution.avg_rating (d : RatingsDistribution) : Except PyErr ℚ :=
  if d.total = 0 then .error .zeroDivisionError
  else .ok ((d.dist.map (fun p => p.1 * (p.2 : ℚ))).sum / (d.total : ℚ))

/-- Largest element of a list of rationals, modelling Python's `max` on a
non-empty collection. -/
def listMax : List ℚ → ℚ
  | [] => 0
  | x :: xs => xs.foldl max x

/-- Model of `self._normalized` (src/bookscrape/scrape/__init__.py
line 185): each rank divided by the largest stored rank. -/
def RatingsDistribution.normalized (d : RatingsDistribution) : List (ℚ × ℤ) :=
  d.dist.map (fun p => (p.1 / listMax (d.dist.map Prod.fst), p.2))

/-- Model of `_span_ratings` (src/bookscrape/scrape/__init__.py
lines 187-188): votes whose normalized rank lies in `(lo, hi]`. -/
def spanRatings (normalized : List (ℚ × ℤ)) (lo hi : ℚ) : ℤ :=
  ((normalized.filter (fun p => decide (lo < p.1) && decide (p.1 ≤ hi))).map Prod.snd).sum

/-- Round-half-to-even on rationals, modelling Python's `round` applied to
the exact quotient. -/
def roundHalfEven (q : ℚ) : ℤ :=
  let f : ℤ := q.floor
  let r : ℚ := q - (f : ℚ)
  if r < 1/2 then f
  else if 1/2 < r then f + 1
  else if f % 2 = 0 then f else f + 1

/-- Model of Python's `round(x, 3)`. -/
def round3 (q : ℚ) : ℚ := (roundHalfEven (q * 1000) : ℚ) / 1000

/-- Model of the `scaled_dist` property (src/bookscrape/scrape/__init__.py
lines 141-161): the stored histogram when the target scheme equals the
stored (sorted) key list, otherwise the proportional re-binning over the
normalized ranks. -/
def RatingsDistribution.scaled_dist (d : RatingsDistribution) : List (ℚ × ℤ) :=
  if d.rank_scheme = d.dist.map Prod.fst then d.dist
  else
    let maxRank := listMax d.rank_scheme
    let n := d.rank_scheme.length
    d.rank_scheme.enum.map (fun p =>
      let i := p.1
      let rank := p.2
      if i = 0 then
        (rank, spanRatings d.normalized 0 (round3 (rank / maxRank)))
      else if i = n - 1 then
        (rank, spanRatings d.normalized (round3 (d.rank_scheme.getD (i - 1) 0 / maxRank)) 1)
      else
        (rank, spanRatings d.normalized (round3 (d.rank_scheme.getD (i - 1) 0 / maxRank))
          (round3 (rank / maxRank))))

/-- Model of `RatingsDistribution.ratings`
(src/bookscrape/scrape/__init__.py lines 190-193): `ValueError` when the
rank is not in the target scheme, otherwise the dict lookup
`self.scaled_dist[rank]` (whose own failure would be a `KeyError`). -/
def RatingsDistribution.ratings (d : RatingsDistribution) (rank : ℚ) :
    Except PyErr ℤ :=
  if rank ∈ d.rank_scheme then
    match d.scaled_dist.lookup rank with
    | some v => .ok v
    | none => .error .keyError
  else .error .valueError

/-- Model of `RatingsDistribution.ratings_percent`
(src/bookscrape/scrape/__init__.py lines 195-199): `ValueError` when the
rank is not in the target scheme, otherwise
`self.ratings(rank) * 100 / self.total`, which raises
`ZeroDivisionError` when `total == 0`.  The final `"%.2f %"` string
formatting is elided; the exact percentage value is returned. -/
def RatingsDistribution.ratings_percent (d : RatingsDistribution) (rank : ℚ) :
    Except PyErr ℚ :=
  if rank ∈ d.rank_scheme then
    match d.ratings rank with
    | .ok v =>
      if d.total = 0 then .error .zeroDivisionError
      else .ok ((v : ℚ) * 100 / (d.total : ℚ))
    | .error e => .error e
  else .error .valueError

/-- Model of the loop body of `BookScraper._scrape_editions`
(src/bookscrape/scrape/provider/goodreads/scrapers.py lines 843-857).
The black-box editions listing is abstracted as `pages`, giving the raw
item count (`editions_count`) that `_parse_editions_page` reports for each
page number.  Starting from page `i`, the loop fetches page `i`, merges
its entries, and stops when `editions_count < 100 or i > 10`; the result
is the last page fetched together with the total number of raw entries
merged.  -/
def editionsLoop (pages : ℕ → ℕ) (i acc : ℕ) : ℕ × ℕ :=
  let count := pages i
  if count < 100 ∨ 10 < i then (i, acc + count)
  else editionsLoop pages (i + 1) (acc + count)
termination_by 11 - i
decreasing_by omega

/-- Model of `BookScraper._scrape_editions` pagination: the
`itertools.count(1)` loop starts at page 1 with no entries merged yet;
returns (number of pages fetched, raw entries merged). -/
def scrape_editions_pages (pages : ℕ → ℕ) : ℕ × ℕ :=
  editionsLoop pages 1 0

/-- Model of `AuthorScraper.__init__`
(src/bookscrape/scrape/provider/goodreads/scrapers.py lines 54-67):
returns the `(author_id, author_name)` state; a cue accepted by
`is_goodreads_id` is assigned verbatim as the author ID, any other cue is
sanitized and stored as the author name. -/
def AuthorScraper.init (author : List Char) : Option (List Char) × Option (List Char) :=
  if is_goodreads_id author then (some author, none)
  else (none, some (sanitize_input author))

/-- Model of the ID-resolution prologue of `AuthorScraper.scrape`
(src/bookscrape/scrape/provider/goodreads/scrapers.py lines 271-273):
`if not self.author_id: self._author_id = self.find_author_id(self.author_name)`.
The network search `find_author_id` is abstracted as an oracle costing one
request; `not self.author_id` is Python falsiness, true for both `None`
and the empty string.  Returns the resolved ID and the number of
resolution requests issued. -/
def author_resolution (find_author_id : List Char → List Char) (author : List Char) :
    List Char × ℕ :=
  let st := AuthorScraper.init author
  match st.1 with
  | some aid =>
    if aid.isEmpty then (find_author_id (st.2.getD []), 1) else (aid, 0)
  | none => (find_author_id (st.2.getD []), 1)

/-- A book cue: either a Goodreads book ID string or a (title, author)
pair (`book_cue: str | Tuple[str, str]`). -/
inductive BookCue where
  | id (s : List Char)
  | titleAuthor (title author : List Char)

/-- Model of `BookScraper.__init__`
(src/bookscrape/scrape/provider/goodreads/scrapers.py lines 513-541).
For a tuple cue both parts are sanitized and `find_book_id` (abstracted as
an oracle returning the derived ID, if any, and the number of network
requests it issued) is consulted; a falsy result raises `ValueError`.
A string cue is accepted verbatim as the book ID exactly when
`is_goodreads_id` holds, at zero network cost, and otherwise raises
`ValueError`.  Returns the assigned book ID and the request count. -/
def BookScraper.init
    (find_book_id : List Char → List Char → Option (List Char) × ℕ) :
    BookCue → Except PyErr (List Char × ℕ)
  | .titleAuthor title author =>
    match find_book_id (sanitize_input title) (sanitize_input author) with
    | (some bid, n) => .ok (bid, n)
    | (none, _) => .error .valueError
  | .id s => if is_goodreads_id s then .ok (s, 0) else .error .valueError

/-- Model of the per-cue loop of `dump_authors`
(src/bookscrape/scrape/goodreads/__init__.py lines 761-787).  Processing
one cue (`AuthorParser(author)` + `fetch_data_with_backoff()`) is
abstracted as `fetch`.  A cue failing with `ParsingError` is logged and
skipped (`except ParsingError as e: print(...); continue`) and
contributes no record; any other exception propagates out of the loop and
aborts the whole batch. -/
def dump_authors_loop {α β : Type} (fetch : α → Except PyErr β) :
    List α → Except PyErr (List β)
  | [] => .ok []
  | c :: cs =>
    match fetch c with
    | .ok r =>
      match dump_authors_loop fetch cs with
      | .ok rs => .ok (r :: rs)
      | .error e => .error e
    | .error .parsingError => dump_authors_loop fetch cs
    | .error e => .error e

deriving instance DecidableEq for Except

/-- Characters admitted in the slug of a dot-separated ID form: ASCII
letters and digits plus the underscore (no separator characters). -/
def dotSlugChar (c : Char) : Bool := c.isAlphanum || c == '_'

/-- The dot-separated "numeric.slug" lexical ID form of the spec: a
non-empty numeric part, a dot, and a non-empty slug of ASCII alphanumeric
or underscore characters. -/
def IsDotFormId (s : List Char) : Prop :=
  ∃ num slug, s = num ++ '.' :: slug ∧ num ≠ [] ∧ num.all Char.isDigit = true ∧
    slug ≠ [] ∧ slug.all dotSlugChar = true

/-- The hyphen-separated "numeric-slug" lexical ID form of the spec: a
non-empty numeric part, a hyphen, and a non-empty slug of ASCII
alphanumeric, underscore or hyphen characters. -/
def IsHyphenFormId (s : List Char) : Prop :=
  ∃ num slug, s = num ++ '-' :: slug ∧ num ≠ [] ∧ num.all Char.isDigit = true ∧
    slug ≠ [] ∧ slug.all slugChar = true

/-- The numeric-only lexical ID form of the spec: a non-empty string of
digits. -/
def IsNumericId (s : List Char) : Prop :=
  s ≠ [] ∧ s.all Char.isDigit = true

/-- Concrete batch-fetch behaviour whose second cue fails with a
non-`ParsingError` exception (a `Timeout` surviving the backoff). -/
def fetchTimeoutAtTwo : ℕ → Except PyErr ℕ :=
  fun n => if n = 2 then .error .timeout else .ok n

/-- Concrete batch-fetch behaviour whose second cue fails with
`ParsingError`. -/
def fetchParsingAtTwo : ℕ → Except PyErr ℕ :=
  fun n => if n = 2 then .error .parsingError else .ok n

/-- Helper: `pySplit` always returns at least one piece, like Python's
`str.split`. -/
theorem pySplit_ne_nil (sep : Char) (l : List Char) : pySplit sep l ≠ [] := by
  cases l with
  | nil => simp [pySplit]
  | cons c cs =>
    simp only [pySplit]
    split <;> simp

/-- Helper: splitting a list whose head part is separator-free detaches
that part as the first piece. -/
theorem pySplit_append (sep : Char) (l r : List Char) (h : sep ∉ l) :
    pySplit sep (l ++ sep :: r) = l :: pySplit sep r := by
  induction l with
  | nil => simp [pySplit]
  | cons c cs ih =>
    have hcs : sep ∉ cs := fun hm => h (List.mem_cons_of_mem _ hm)
    have hc : ¬ c = sep := fun e => h (by rw [e]; exact List.mem_cons_self _ _)
    simp only [List.cons_append, pySplit]
    simp [hc, ih hcs]

/-- Helper: splitting a separator-free list returns it as the only
piece. -/
theorem pySplit_of_not_mem (sep : Char) (r : List Char) (h : sep ∉ r) :
    pySplit sep r = [r] := by
  induction r with
  | nil => simp [pySplit]
  | cons c cs ih =>
    have hcs : sep ∉ cs := fun hm => h (List.mem_cons_of_mem _ hm)
    have hc : ¬ c = sep := fun e => h (by rw [e]; exact List.mem_cons_self _ _)
    simp [pySplit, ih hcs, hc]

/-- Helper: joining all pieces of a split removes exactly the separator
occurrences. -/
theorem flatten_pySplit (sep : Char) (r : List Char) :
    (pySplit sep r).flatten = r.filter (fun c => !(c == sep)) := by
  induction r with
  | nil => simp [pySplit]
  | cons c cs ih =>
    by_cases hc : c = sep
    · subst hc
      simp [pySplit, ih]
    · obtain ⟨p, ps, hps⟩ := List.exists_cons_of_ne_nil (pySplit_ne_nil sep cs)
      have hflat : (pySplit sep (c :: cs)).flatten = c :: (pySplit sep cs).flatten := by
        simp [pySplit, hc, hps]
      rw [hflat, ih]
      simp [hc]

/-- Helper: an element on which the predicate is false cannot occur in a
list all of whose elements satisfy it. -/
theorem not_mem_of_all {p : Char → Bool} {l : List Char} (h : l.all p = true)
    {c : Char} (hc : p c = false) : c ∉ l := by
  intro hm
  have := List.all_eq_true.mp h c hm
  rw [hc] at this
  exact Bool.false_ne_true this

/-- Helper: a dot-form ID passes `is_goodreads_id`. -/
theorem is_goodreads_id_dotForm (num slug : List Char) (hnum : num ≠ [])
    (hd : num.all Char.isDigit = true) (hslug : slug ≠ [])
    (hs : slug.all dotSlugChar = true) :
    is_goodreads_id (num ++ '.' :: slug) = true := by
  have hdotnum : '.' ∉ num := not_mem_of_all hd (by decide)
  have hdotslug : '.' ∉ slug := not_mem_of_all hs (by decide)
  have hhnum : '-' ∉ num := not_mem_of_all hd (by decide)
  have hhslug : '-' ∉ slug := not_mem_of_all hs (by decide)
  have hdot : '.' ∈ num ++ '.' :: slug := List.mem_append_right _ (List.mem_cons_self _ _)
  have hhyp : '-' ∉ num ++ '.' :: slug := by
    simp only [List.mem_append, List.mem_cons]
    push_neg
    exact ⟨hhnum, by decide, hhslug⟩
  have hnotdigit : (num ++ '.' :: slug).all Char.isDigit = false := by
    rw [Bool.eq_false_iff]
    intro hall
    exact absurd (List.all_eq_true.mp hall '.' hdot) (by decide)
  have hlen : ¬ (num ++ '.' :: slug).length ≤ 2 := by
    have h1 : 1 ≤ num.length := List.length_pos.mpr hnum
    have h2 : 1 ≤ slug.length := List.length_pos.mpr hslug
    simp only [List.length_append, List.length_cons]
    omega
  have hslug' : slug.all slugChar = true := by
    rw [List.all_eq_true] at hs ⊢
    intro c hcmem
    have := hs c hcmem
    simp only [dotSlugChar, Bool.or_eq_true] at this
    simp only [slugChar, Bool.or_eq_true]
    tauto
  have hcdot : (num ++ '.' :: slug).contains '.' = true := by simp [hdot]
  have hchyp : (num ++ '.' :: slug).contains '-' = false := by simp [hhyp]
  have hparts : goodreadsIdParts '.' (num ++ '.' :: slug) = true := by
    simp [goodreadsIdParts, pySplit_append _ _ _ hdotnum, pySplit_of_not_mem _ _ hdotslug,
      hd, hslug']
  simp [is_goodreads_id, hnotdigit, hlen, hcdot, hchyp, hparts]
  refine ⟨?_, hhnum, hhslug⟩
  have h1 : 1 ≤ num.length := List.length_pos.mpr hnum
  have h2 : 1 ≤ slug.length := List.length_pos.mpr hslug
  omega

/-- Helper: a hyphen-form ID passes `is_goodreads_id`. -/
theorem is_goodreads_id_hyphenForm (num slug : List Char) (hnum : num ≠ [])
    (hd : num.all Char.isDigit = true) (hslug : slug ≠ [])
    (hs : slug.all slugChar = true) :
    is_goodreads_id (num ++ '-' :: slug) = true := by
  have hhnum : '-' ∉ num := not_mem_of_all hd (by decide)
  have hdotnum : '.' ∉ num := not_mem_of_all hd (by decide)
  have hdotslug : '.' ∉ slug := not_mem_of_all hs (by decide)
  have hhy : '-' ∈ num ++ '-' :: slug := List.mem_append_right _ (List.mem_cons_self _ _)
  have hdotnotin : '.' ∉ num ++ '-' :: slug := by
    simp only [List.mem_append, List.mem_cons]
    push_neg
    exact ⟨hdotnum, by decide, hdotslug⟩
  have hnotdigit : (num ++ '-' :: slug).all Char.isDigit = false := by
    rw [Bool.eq_false_iff]
    intro hall
    exact absurd (List.all_eq_true.mp hall '-' hhy) (by decide)
  have hlen : ¬ (num ++ '-' :: slug).length ≤ 2 := by
    have h1 : 1 ≤ num.length := List.length_pos.mpr hnum
    have h2 : 1 ≤ slug.length := List.length_pos.mpr hslug
    simp only [List.length_append, List.length_cons]
    omega
  have hcdot : (num ++ '-' :: slug).contains '.' = false := by simp [hdotnotin]
  have hchy : (num ++ '-' :: slug).contains '-' = true := by simp [hhy]
  have hright : ((pySplit '-' slug).flatten).all slugChar = true := by
    rw [flatten_pySplit, List.all_eq_true]
    intro c hcmem
    exact List.all_eq_true.mp hs c (List.mem_of_mem_filter hcmem)
  have hparts : goodreadsIdParts '-' (num ++ '-' :: slug) = true := by
    simp [goodreadsIdParts, pySplit_append _ _ _ hhnum, hd, hright]
  simp [is_goodreads_id, hnotdigit, hlen, hcdot, hchy, hparts]
  refine ⟨?_, ⟨hdotnum, hdotslug⟩, Or.inl ⟨hdotnum, hdotslug⟩⟩
  have h1 : 1 ≤ num.length := List.length_pos.mpr hnum
  have h2 : 1 ≤ slug.length := List.length_pos.mpr hslug
  omega

/-- Helper: an all-digits string (the empty string included) passes
`is_goodreads_id` through its first branch. -/
theorem is_goodreads_id_numeric (s : List Char) (h : s.all Char.isDigit = true) :
    is_goodreads_id s = true := by
  simp [is_goodreads_id, h]

/-- Helper: a string containing both separators is rejected by
`is_goodreads_id`. -/
theorem is_goodreads_id_both_seps (s : List Char) (h1 : '.' ∈ s) (h2 : '-' ∈ s) :
    is_goodreads_id s = false := by
  have hnotdigit : s.all Char.isDigit = false := by
    rw [Bool.eq_false_iff]
    intro hall
    exact absurd (List.all_eq_true.mp hall '.' h1) (by decide)
  by_cases hlen : s.length ≤ 2
  · simp [is_goodreads_id, hnotdigit, hlen]
  · simp [is_goodreads_id, hnotdigit, hlen, h1, h2]

/-- C8: the ID predicate accepts all three lexical forms — dot-separated
"numeric.slug", hyphen-separated "numeric-slug" and numeric-only — and
rejects every string containing both '.' and '-' simultaneously. -/
theorem is_goodreads_id_accepts_forms_rejects_mixed :
    (∀ s : List Char, IsDotFormId s ∨ IsHyphenFormId s ∨ IsNumericId s →
      is_goodreads_id s = true) ∧
    (∀ s : List Char, '.' ∈ s → '-' ∈ s → is_goodreads_id s = false) := by
  constructor
  · rintro s (⟨num, slug, rfl, hnum, hd, hslug, hs⟩ | ⟨num, slug, rfl, hnum, hd, hslug, hs⟩ |
      ⟨hne, hdig⟩)
    · exact is_goodreads_id_dotForm num slug hnum hd hslug hs
    · exact is_goodreads_id_hyphenForm num slug hnum hd hslug hs
    · exact is_goodreads_id_numeric s hdig
  · exact fun s h1 h2 => is_goodreads_id_both_seps s h1 h2

/-- Witness for C8: concrete IDs in each of the three accepted forms are
accepted and a concrete mixed-separator string is rejected. -/
theorem is_goodreads_id_accepts_forms_rejects_mixed_witness :
    is_goodreads_id (("625094.The_Leopard").toList) = true ∧
    is_goodreads_id (("9969571-ready-player-one").toList) = true ∧
    is_goodreads_id (("40982390").toList) = true ∧
    is_goodreads_id (("1.2-3").toList) = false :=
  ⟨is_goodreads_id_accepts_forms_rejects_mixed.1 _
      (Or.inl ⟨("625094").toList, ("The_Leopard").toList, by decide, by decide, by decide,
        by decide, by decide⟩),
   is_goodreads_id_accepts_forms_rejects_mixed.1 _
      (Or.inr (Or.inl ⟨("9969571").toList, ("ready-player-one").toList, by decide, by decide,
        by decide, by decide, by decide⟩)),
   is_goodreads_id_accepts_forms_rejects_mixed.1 _
      (Or.inr (Or.inr ⟨by decide, by decide⟩)),
   is_goodreads_id_accepts_forms_rejects_mixed.2 _ (by decide) (by decide)⟩

/-- C10: `is_goodreads_id ""` is `True` (the all-digits check is vacuously
satisfied by the empty string), so `AuthorScraper.__init__` treats an
empty-string cue as an already-valid canonical ID: it is assigned as the
author ID and the name-assignment branch is skipped. -/
theorem empty_string_treated_as_valid_id :
    is_goodreads_id [] = true ∧ AuthorScraper.init [] = (some [], none) := by
  constructor
  · decide
  · rfl

/-- C7: a cue that is already a syntactically valid canonical ID (dot,
hyphen or numeric-only form) is assigned verbatim as the entity's ID by
both `AuthorScraper` (with zero requests in its `scrape` resolution
prologue) and `BookScraper.__init__` (zero requests), for every behaviour
of the network oracles. -/
theorem valid_id_cue_resolved_verbatim_zero_requests
    (cue : List Char)
    (find_author_id : List Char → List Char)
    (find_book_id : List Char → List Char → Option (List Char) × ℕ)
    (h : IsDotFormId cue ∨ IsHyphenFormId cue ∨ IsNumericId cue) :
    author_resolution find_author_id cue = (cue, 0) ∧
    BookScraper.init find_book_id (.id cue) = .ok (cue, 0) := by
  have hv : is_goodreads_id cue = true ∧ cue ≠ [] := by
    rcases h with ⟨num, slug, rfl, hnum, hd, hslug, hs⟩ | ⟨num, slug, rfl, hnum, hd, hslug, hs⟩ |
      ⟨hne, hdig⟩
    · exact ⟨is_goodreads_id_dotForm num slug hnum hd hslug hs, by simp⟩
    · exact ⟨is_goodreads_id_hyphenForm num slug hnum hd hslug hs, by simp⟩
    · exact ⟨is_goodreads_id_numeric _ hdig, hne⟩
  obtain ⟨hvalid, hne⟩ := hv
  constructor
  · simp [author_resolution, AuthorScraper.init, hvalid, hne]
  · simp [BookScraper.init, hvalid]

/-- Witness for C7: the concrete hyphen-form ID cue "12-ab" is returned
verbatim with zero resolution requests by both scrapers. -/
theorem valid_id_cue_resolved_verbatim_zero_requests_witness :
    author_resolution id (("12-ab").toList) = ((("12-ab").toList), 0) ∧
    BookScraper.init (fun _ _ => (none, 0)) (.id (("12-ab").toList)) =
      .ok ((("12-ab").toList), 0) :=
  valid_id_cue_resolved_verbatim_zero_requests _ id (fun _ _ => (none, 0))
    (Or.inr (Or.inl ⟨("12").toList, ("ab").toList, by decide, by decide, by decide,
      by decide, by decide⟩))

/-- C6: classifying a count equal to the (positive) reference count lands
in the top tier — the top boundary `reference_count / f1` is inclusive. -/
theorem renown_top_boundary_inclusive (R : ℤ) (h : 0 < R) :
    Renown.calculate R R DEFAULT_FRACTIONS = .ok .SUPERSTAR := by
  have e3 : (R : ℤ).tdiv 3 = R / 3 := Int.tdiv_eq_ediv (by omega) (by omega)
  have hc : (R : ℤ).tdiv 3 ≤ R := by omega
  simp only [Renown.calculate, DEFAULT_FRACTIONS, pyIntDiv, List.getD_cons_zero,
    List.getD_cons_succ, mul_one]
  rw [if_neg (by decide), if_neg (by decide), if_pos hc]

/-- Witness for C6: a concrete positive reference count (7) classified
against itself is `SUPERSTAR`. -/
theorem renown_top_boundary_inclusive_witness :
    Renown.calculate 7 7 DEFAULT_FRACTIONS = .ok .SUPERSTAR :=
  renown_top_boundary_inclusive 7 (by decide)

/-- Counterexample for C3: with reference count 1, a zero rating count is
classified `SUPERSTAR`, not the bottom tier `OBSCURE` — the first bracket
boundary `int(1 * 1 / 3) = 0` is reached by `ratings = 0`. -/
theorem renown_zero_count_counterexample :
    Renown.calculate 0 1 DEFAULT_FRACTIONS = .ok .SUPERSTAR ∧
    Renown.SUPERSTAR ≠ Renown.OBSCURE := by
  constructor
  · decide
  · decide

set_option maxHeartbeats 1000000 in
/-- C3 (amended): for every positive reference count `N`,
`Renown.calculate 0 N` does not fail (some tier is always returned), and
it returns the bottom tier `OBSCURE` exactly on the reference counts with
`N / 1191 ≥ 1`, i.e. for `N ≥ 1191`; for smaller positive `N` the zero
count lands in a higher tier. -/
theorem renown_zero_count_classification (N : ℤ) (h : 0 < N) :
    (∃ t, Renown.calculate 0 N DEFAULT_FRACTIONS = .ok t) ∧
    (1191 ≤ N → Renown.calculate 0 N DEFAULT_FRACTIONS = .ok .OBSCURE) := by
  have e3 : (N : ℤ).tdiv 3 = N / 3 := Int.tdiv_eq_ediv (by omega) (by omega)
  have e11 : (N : ℤ).tdiv 11 = N / 11 := Int.tdiv_eq_ediv (by omega) (by omega)
  have e29 : (N : ℤ).tdiv 29 = N / 29 := Int.tdiv_eq_ediv (by omega) (by omega)
  have e66 : (N : ℤ).tdiv 66 = N / 66 := Int.tdiv_eq_ediv (by omega) (by omega)
  have e141 : (N : ℤ).tdiv 141 = N / 141 := Int.tdiv_eq_ediv (by omega) (by omega)
  have e291 : (N : ℤ).tdiv 291 = N / 291 := Int.tdiv_eq_ediv (by omega) (by omega)
  have e591 : (N : ℤ).tdiv 591 = N / 591 := Int.tdiv_eq_ediv (by omega) (by omega)
  have e1191 : (N : ℤ).tdiv 1191 = N / 1191 := Int.tdiv_eq_ediv (by omega) (by omega)
  simp only [Renown.calculate, DEFAULT_FRACTIONS, pyIntDiv, List.getD_cons_zero,
    List.getD_cons_succ, mul_one]
  rw [if_neg (by decide), if_neg (by decide)]
  constructor
  · split_ifs <;> first
      | exact ⟨_, rfl⟩
      | (exfalso; omega)
  · intro h1191
    split_ifs <;> first
      | rfl
      | (exfalso; omega)

/-- Witness for C3 (amended): reference count 1500 classifies a zero
rating count as `OBSCURE`. -/
theorem renown_zero_count_classification_witness :
    Renown.calculate 0 1500 DEFAULT_FRACTIONS = .ok .OBSCURE :=
  (renown_zero_count_classification 1500 (by decide)).2 (by decide)

/-- C1 (code evaluation at the failing input): on an editions listing
whose every page carries the full 100 raw entries, the loop of
`_scrape_editions` fetches 11 pages and merges 1100 raw entries — the
break condition `editions_count < 100 or i > 10` is only checked after
page `i` has been fetched and merged, so page 11 is still scraped,
contradicting the intended cap of exactly 10 pages (1000 entries). -/
theorem scrape_editions_uniform_full_pages :
    scrape_editions_pages (fun _ => 100) = (11, 1100) := by
  simp only [scrape_editions_pages]
  repeat (rw [editionsLoop]; norm_num)

/-- Counterexample for C4: a batch whose second cue fails with a
non-`ParsingError` exception (here a `Timeout` surviving the backoff)
aborts the whole batch instead of isolating the bad cue: the loop result
is the propagated error, the first cue's record is lost and the third cue
is never processed. -/
theorem dump_authors_nonparsing_aborts :
    dump_authors_loop fetchTimeoutAtTwo [1, 2, 3] = .error .timeout := by
  decide

/-- C4 (amended): the batch driver of `dump_authors` is exception-safe
for `ParsingError` only: a cue failing with `ParsingError` is logged and
skipped — its record is absent from the output and all remaining cues are
still processed, the surrounding results unchanged — while any other
exception class propagates and aborts the batch. -/
theorem dump_authors_parsing_error_isolated {α β : Type} (fetch : α → Except PyErr β)
    (cs₁ : List α) (c : α) (cs₂ : List α) (h : fetch c = .error .parsingError) :
    dump_authors_loop fetch (cs₁ ++ c :: cs₂) = dump_authors_loop fetch (cs₁ ++ cs₂) := by
  induction cs₁ with
  | nil => simp [dump_authors_loop, h]
  | cons a as ih => simp only [List.cons_append, dump_authors_loop, List.append_eq, ih]

/-- Witness for C4 (amended): in the concrete batch `[1, 2, 3]` whose
second cue fails with `ParsingError`, the result equals that of the batch
without the failing cue. -/
theorem dump_authors_parsing_error_isolated_witness :
    dump_authors_loop fetchParsingAtTwo ([1] ++ 2 :: [3]) =
      dump_authors_loop fetchParsingAtTwo ([1] ++ [3]) :=
  dump_authors_parsing_error_isolated fetchParsingAtTwo [1] 2 [3] (by decide)

/-- Helper: inversion of a successful `RatingsDistribution.init`: the
stored histogram is the key-sorted input, the stored scheme is the sorted
duplicate-free target scheme (defaulting to the input keys), and the
input had at least three entries. -/
theorem init_ok_inv (distribution : List (ℚ × ℤ)) (scheme : List ℚ)
    (d : RatingsDistribution)
    (h : RatingsDistribution.init distribution scheme = .ok d) :
    d.dist = sortPairs distribution ∧
    d.rank_scheme =
      sortedSet (if scheme.isEmpty then distribution.map Prod.fst else scheme) ∧
    3 ≤ distribution.length := by
  simp only [RatingsDistribution.init] at h
  by_cases hse : scheme.isEmpty = true
  · simp only [hse, if_true] at h ⊢
    split_ifs at h with h1 h2
    injection h with hd
    subst hd
    refine ⟨rfl, rfl, ?_⟩
    simp only [Bool.or_eq_true, not_or] at h1
    have := h1.2
    simp at this
    omega
  · have hse' : scheme.isEmpty = false := by simpa using hse
    simp only [hse', Bool.false_eq_true, if_false] at h ⊢
    split_ifs at h with h1 h2
    injection h with hd
    subst hd
    refine ⟨rfl, rfl, ?_⟩
    simp only [Bool.or_eq_true, not_or] at h1
    have := h1.2
    simp at this
    omega

/-- Helper: the keys of `scaled_dist` are exactly the target rank scheme,
in both branches of the rescaling. -/
theorem scaled_dist_keys (d : RatingsDistribution) :
    d.scaled_dist.map Prod.fst = d.rank_scheme := by
  rw [RatingsDistribution.scaled_dist]
  split_ifs with hif
  · exact hif.symm
  · rw [List.map_map]
    have hcomp : ∀ p : ℕ × ℚ, (Prod.fst ∘ fun p : ℕ × ℚ =>
        if p.1 = 0 then
          (p.2, spanRatings d.normalized 0 (round3 (p.2 / listMax d.rank_scheme)))
        else if p.1 = d.rank_scheme.length - 1 then
          (p.2, spanRatings d.normalized
            (round3 (d.rank_scheme.getD (p.1 - 1) 0 / listMax d.rank_scheme)) 1)
        else
          (p.2, spanRatings d.normalized
            (round3 (d.rank_scheme.getD (p.1 - 1) 0 / listMax d.rank_scheme))
            (round3 (p.2 / listMax d.rank_scheme)))) p = p.2 := by
      intro p
      simp only [Function.comp_apply]
      split_ifs <;> rfl
    rw [List.map_congr_left (fun p _ => hcomp p), List.enum_map_snd]

/-- Helper: an association-list lookup succeeds for every key occurring in
the key column. -/
theorem lookup_of_mem_keys (l : List (ℚ × ℤ)) (a : ℚ) (h : a ∈ l.map Prod.fst) :
    ∃ v, l.lookup a = some v := by
  induction l with
  | nil => simp at h
  | cons p ps ih =>
    obtain ⟨k, v⟩ := p
    rw [List.map_cons, List.mem_cons] at h
    by_cases he : a = k
    · subst he
      exact ⟨v, by simp [List.lookup]⟩
    · have hbeq : (a == k) = false := beq_eq_false_iff_ne.mpr he
      obtain ⟨w, hw⟩ := ih (h.resolve_left he)
      exact ⟨w, by simp [List.lookup, hbeq, hw]⟩

/-- Helper: `ratings` succeeds on every member of the target scheme. -/
theorem ratings_of_mem (d : RatingsDistribution) (rank : ℚ)
    (h : rank ∈ d.rank_scheme) :
    ∃ v, d.ratings rank = .ok v ∧ d.scaled_dist.lookup rank = some v := by
  obtain ⟨v, hv⟩ := lookup_of_mem_keys d.scaled_dist rank
    (by rw [scaled_dist_keys]; exact h)
  refine ⟨v, ?_, hv⟩
  rw [RatingsDistribution.ratings, if_pos h, hv]

/-- Helper: `ratings` raises `ValueError` outside the target scheme. -/
theorem ratings_of_not_mem (d : RatingsDistribution) (rank : ℚ)
    (h : rank ∉ d.rank_scheme) :
    d.ratings rank = .error .valueError := by
  rw [RatingsDistribution.ratings, if_neg h]

/-- Helper: `ratings_percent` raises `ValueError` outside the target
scheme. -/
theorem ratings_percent_of_not_mem (d : RatingsDistribution) (rank : ℚ)
    (h : rank ∉ d.rank_scheme) :
    d.ratings_percent rank = .error .valueError := by
  rw [RatingsDistribution.ratings_percent, if_neg h]

/-- Helper: `ratings_percent` raises `ZeroDivisionError` on a member rank
when the vote total is zero. -/
theorem ratings_percent_zero_total (d : RatingsDistribution) (rank : ℚ)
    (h : rank ∈ d.rank_scheme) (ht : d.total = 0) :
    d.ratings_percent rank = .error .zeroDivisionError := by
  obtain ⟨v, hv, _⟩ := ratings_of_mem d rank h
  rw [RatingsDistribution.ratings_percent, if_pos h, hv]
  simp [ht]

/-- Helper: on a histogram with duplicate-free keys, the sorted
duplicate-free key set equals the key column of the key-sorted
histogram. -/
theorem sortedSet_keys_eq_sortPairs_map (distribution : List (ℚ × ℤ))
    (hnd : (distribution.map Prod.fst).Nodup) :
    sortedSet (distribution.map Prod.fst) = (sortPairs distribution).map Prod.fst := by
  have hA1 : List.Sorted pairLe (sortPairs distribution) :=
    List.sorted_insertionSort pairLe distribution
  have hA : ((sortPairs distribution).map Prod.fst).Sorted (· ≤ ·) :=
    List.Pairwise.map Prod.fst (fun _ _ hab => hab) hA1
  have hApm : List.Perm ((sortPairs distribution).map Prod.fst)
      (distribution.map Prod.fst) :=
    (List.perm_insertionSort pairLe distribution).map Prod.fst
  have hB : (sortedSet (distribution.map Prod.fst)).Sorted (· ≤ ·) :=
    List.sorted_insertionSort _ _
  have hBpm : List.Perm (sortedSet (distribution.map Prod.fst))
      (distribution.map Prod.fst) := by
    rw [sortedSet, List.dedup_eq_self.mpr hnd]
    exact List.perm_insertionSort _ _
  exact List.eq_of_perm_of_sorted (hBpm.trans hApm.symm) hB hA

/-- C5: rescaling is idempotent — for every histogram with duplicate-free
keys and every target rank scheme whose value set equals the histogram's
key set (set equality canonicalized by sorting and deduplication, hence
order-independent), a constructed distribution's `scaled_dist` is the
stored histogram unchanged. -/
theorem scaled_dist_idempotent_on_own_keys (distribution : List (ℚ × ℤ))
    (scheme : List ℚ) (d : RatingsDistribution)
    (hnd : (distribution.map Prod.fst).Nodup)
    (hinit : RatingsDistribution.init distribution scheme = .ok d)
    (hset : sortedSet scheme = sortedSet (distribution.map Prod.fst)) :
    d.scaled_dist = d.dist := by
  obtain ⟨hdist, hscheme, _⟩ := init_ok_inv distribution scheme d hinit
  have hkeys : d.rank_scheme = d.dist.map Prod.fst := by
    have hsch : d.rank_scheme = sortedSet (distribution.map Prod.fst) := by
      rw [hscheme]
      by_cases hse : scheme.isEmpty = true
      · rw [if_pos hse]
      · rw [if_neg hse, hset]
    rw [hsch, hdist]
    exact sortedSet_keys_eq_sortPairs_map distribution hnd
  rw [RatingsDistribution.scaled_dist, if_pos hkeys]

/-- Witness for C5: the spec's five-star histogram with the target scheme
supplied in scrambled order rescales to the stored histogram unchanged. -/
theorem scaled_dist_idempotent_on_own_keys_witness :
    RatingsDistribution.scaled_dist
        ⟨[(1, 10), (2, 20), (3, 30), (4, 25), (5, 15)], [1, 2, 3, 4, 5]⟩ =
      [(1, 10), (2, 20), (3, 30), (4, 25), (5, 15)] :=
  scaled_dist_idempotent_on_own_keys
    [(1, 10), (2, 20), (3, 30), (4, 25), (5, 15)] [5, 3, 1, 2, 4]
    ⟨[(1, 10), (2, 20), (3, 30), (4, 25), (5, 15)], [1, 2, 3, 4, 5]⟩
    (by decide) (by decide) (by decide)

/-- Counterexample for C2: the valid all-zero-votes histogram
constructs successfully, and both the average-rating query and the
per-rank percentage query then fail with `ZeroDivisionError` instead of
returning the fallback value 0. -/
theorem zero_total_queries_raise_counterexample :
    RatingsDistribution.init [(1, 0), (2, 0), (3, 0)] [] =
      .ok ⟨[(1, 0), (2, 0), (3, 0)], [1, 2, 3]⟩ ∧
    RatingsDistribution.avg_rating ⟨[(1, 0), (2, 0), (3, 0)], [1, 2, 3]⟩ =
      .error .zeroDivisionError ∧
    RatingsDistribution.ratings_percent ⟨[(1, 0), (2, 0), (3, 0)], [1, 2, 3]⟩ 1 =
      .error .zeroDivisionError ∧
    (Except.error .zeroDivisionError : Except PyErr ℚ) ≠ .ok 0 := by
  exact ⟨by decide, by decide, by decide, by decide⟩

/-- C2 (amended): for every constructed `RatingsDistribution` whose vote
counts sum to zero, `avg_rating` raises `ZeroDivisionError`, and
`ratings_percent` raises `ZeroDivisionError` on every rank of the target
scheme — there is no 0 fallback. -/
theorem zero_total_queries_raise (distribution : List (ℚ × ℤ)) (scheme : List ℚ)
    (d : RatingsDistribution) (rank : ℚ)
    (_hinit : RatingsDistribution.init distribution scheme = .ok d)
    (ht : d.total = 0) :
    d.avg_rating = .error .zeroDivisionError ∧
    (rank ∈ d.rank_scheme → d.ratings_percent rank = .error .zeroDivisionError) := by
  constructor
  · rw [RatingsDistribution.avg_rating, if_pos ht]
  · intro hm
    exact ratings_percent_zero_total d rank hm ht

/-- Witness for C2 (amended): the concrete all-zero-votes histogram
raises `ZeroDivisionError` from both queries. -/
theorem zero_total_queries_raise_witness :
    RatingsDistribution.avg_rating ⟨[(1, 0), (2, 0), (3, 0)], [1, 2, 3]⟩ =
      .error .zeroDivisionError ∧
    RatingsDistribution.ratings_percent ⟨[(1, 0), (2, 0), (3, 0)], [1, 2, 3]⟩ 1 =
      .error .zeroDivisionError :=
  ⟨(zero_total_queries_raise [(1, 0), (2, 0), (3, 0)] []
      ⟨[(1, 0), (2, 0), (3, 0)], [1, 2, 3]⟩ 1 (by decide) (by decide)).1,
   (zero_total_queries_raise [(1, 0), (2, 0), (3, 0)] []
      ⟨[(1, 0), (2, 0), (3, 0)], [1, 2, 3]⟩ 1 (by decide) (by decide)).2 (by decide)⟩

/-- Counterexample for C9: on a constructed distribution, querying a rank
outside the target scheme fails with `ValueError`, which is not the
`KeyError` class the claim names. -/
theorem ratings_error_class_counterexample :
    RatingsDistribution.init [(1, 5), (2, 6), (3, 7)] [] =
      .ok ⟨[(1, 5), (2, 6), (3, 7)], [1, 2, 3]⟩ ∧
    RatingsDistribution.ratings ⟨[(1, 5), (2, 6), (3, 7)], [1, 2, 3]⟩ 7 =
      .error .valueError ∧
    RatingsDistribution.ratings_percent ⟨[(1, 5), (2, 6), (3, 7)], [1, 2, 3]⟩ 7 =
      .error .valueError ∧
    PyErr.valueError ≠ PyErr.keyError := by
  exact ⟨by decide, by decide, by decide, by decide⟩

/-- C9 (amended): for every constructed `RatingsDistribution`,
`ratings(rank)` and `ratings_percent(rank)` fail with `ValueError`
exactly when `rank` is not a member of the target rank scheme; for a
member rank, `ratings` returns the scaled vote count found in
`scaled_dist`, and `ratings_percent` returns the percentage of that
count whenever the vote total is non-zero, raising `ZeroDivisionError`
(never `ValueError`) when the total is zero. -/
theorem ratings_domain_valueerror (distribution : List (ℚ × ℤ)) (scheme : List ℚ)
    (d : RatingsDistribution) (rank : ℚ)
    (_hinit : RatingsDistribution.init distribution scheme = .ok d) :
    (rank ∉ d.rank_scheme →
      d.ratings rank = .error .valueError ∧
      d.ratings_percent rank = .error .valueError) ∧
    (rank ∈ d.rank_scheme →
      ∃ v, d.ratings rank = .ok v ∧ d.scaled_dist.lookup rank = some v ∧
        (d.total = 0 → d.ratings_percent rank = .error .zeroDivisionError) ∧
        (d.total ≠ 0 →
          d.ratings_percent rank = .ok ((v : ℚ) * 100 / (d.total : ℚ)))) := by
  constructor
  · intro h
    exact ⟨ratings_of_not_mem d rank h, ratings_percent_of_not_mem d rank h⟩
  · intro h
    obtain ⟨v, hv, hl⟩ := ratings_of_mem d rank h
    refine ⟨v, hv, hl, fun ht => ratings_percent_zero_total d rank h ht, fun ht => ?_⟩
    rw [RatingsDistribution.ratings_percent, if_pos h, hv]
    simp [ht]

/-- Witness for C9 (amended): on a concrete constructed distribution,
rank 9 (not in the scheme) yields `ValueError` from both queries, and
rank 2 (in the scheme, total 18) yields its scaled vote count together
with the percentage on the non-zero total. -/
theorem ratings_domain_valueerror_witness :
    (RatingsDistribution.ratings ⟨[(1, 5), (2, 6), (3, 7)], [1, 2, 3]⟩ 9 =
        .error .valueError ∧
      RatingsDistribution.ratings_percent ⟨[(1, 5), (2, 6), (3, 7)], [1, 2, 3]⟩ 9 =
        .error .valueError) ∧
    (∃ v, RatingsDistribution.ratings ⟨[(1, 5), (2, 6), (3, 7)], [1, 2, 3]⟩ 2 = .ok v ∧
      (RatingsDistribution.scaled_dist ⟨[(1, 5), (2, 6), (3, 7)], [1, 2, 3]⟩).lookup 2 =
        some v ∧
      (RatingsDistribution.total ⟨[(1, 5), (2, 6), (3, 7)], [1, 2, 3]⟩ = 0 →
        RatingsDistribution.ratings_percent ⟨[(1, 5), (2, 6), (3, 7)], [1, 2, 3]⟩ 2 =
          .error .zeroDivisionError) ∧
      (RatingsDistribution.total ⟨[(1, 5), (2, 6), (3, 7)], [1, 2, 3]⟩ ≠ 0 →
        RatingsDistribution.ratings_percent ⟨[(1, 5), (2, 6), (3, 7)], [1, 2, 3]⟩ 2 =
          .ok ((v : ℚ) * 100 /
            (RatingsDistribution.total ⟨[(1, 5), (2, 6), (3, 7)], [1, 2, 3]⟩ : ℚ)))) :=
  ⟨(ratings_domain_valueerror [(1, 5), (2, 6), (3, 7)] []
      ⟨[(1, 5), (2, 6), (3, 7)], [1, 2, 3]⟩ 9 (by decide)).1 (by decide),
   (ratings_domain_valueerror [(1, 5), (2, 6), (3, 7)] []
      ⟨[(1, 5), (2, 6), (3, 7)], [1, 2, 3]⟩ 2 (by decide)).2 (by decide)⟩
